import Mathlib

/-
  Verification development for the QuickCart self-checkout client
  (React Native frontend: session pairing, frame streaming, cart
  reconciliation and payment orchestration).

  Shallow embedding conventions:
  * JS numbers that hold prices are modelled as rationals (ℚ);
    quantities are modelled as integers (ℤ) since JS numbers are signed.
  * Math.round is modelled half-up on ℚ (floor (x + 1/2)), which is the
    JS semantics for finite arguments.
  * async functions are modelled as pure functions from an explicit
    environment (the outcomes of the awaited collaborator calls) to the
    resulting component state plus the list of network requests issued;
    a JS rejection is an Except.error, and a try/catch is a match on it.
  * React state setters and mutable refs are modelled as fields of an
    explicit state record, updated in program order.
-/

namespace QuickCart

/-- Model of Math.round on rationals: floor (x + 1/2). For every finite
JS number this is the rounding Math.round performs (half away from minus
infinity). -/
def jsRound (q : ℚ) : ℤ := ⌊q + 1/2⌋

/-! ## CartContext.tsx: the local cart model -/

namespace Cart

/-- Product type from frontend/contexts/CartContext.tsx. -/
structure Product where
  id : String
  name : String
  price : ℚ
  quantity : ℤ
deriving DecidableEq, Repr

/-- TAX_RATE = 0.13 from CartContext.tsx line 30. -/
def TAX_RATE : ℚ := 13 / 100

/-- getSubtotal: products.reduce((sum, p) => sum + p.price * p.quantity, 0). -/
def getSubtotal (ps : List Product) : ℚ :=
  ps.foldl (fun sum p => sum + p.price * (p.quantity : ℚ)) 0

/-- getTax: getSubtotal() * TAX_RATE. -/
def getTax (ps : List Product) : ℚ := getSubtotal ps * TAX_RATE

/-- getTotal: getSubtotal() + getTax(). -/
def getTotal (ps : List Product) : ℚ := getSubtotal ps + getTax ps

/-- removeProduct: setProducts(prev.filter(p => p.id !== id)). -/
def removeProduct (ps : List Product) (id : String) : List Product :=
  ps.filter (fun p => ¬ (p.id = id))

/-- updateProductQuantity: quantity <= 0 removes the product, otherwise the
matching product gets the new quantity. -/
def updateProductQuantity (ps : List Product) (id : String) (quantity : ℤ) :
    List Product :=
  if quantity ≤ 0 then removeProduct ps id
  else ps.map (fun p => if p.id = id then { p with quantity := quantity } else p)

/-- addProduct: if a product with the same id exists its quantity is increased
by the added quantity, otherwise the product is appended as given. -/
def addProduct (ps : List Product) (product : Product) : List Product :=
  if (ps.find? (fun p => p.id = product.id)).isSome then
    ps.map (fun p =>
      if p.id = product.id then { p with quantity := p.quantity + product.quantity }
      else p)
  else ps ++ [product]

/-- clearCart: setProducts([]). -/
def clearCart : List Product := []

end Cart

/-! ## services/stripe.ts: money conversion helpers and the payment sheet flow -/

namespace Stripe

/-- dollarsToCents: Math.round(dollars * 100). -/
def dollarsToCents (dollars : ℚ) : ℤ := jsRound (dollars * 100)

/-- centsToDollars: cents / 100. -/
def centsToDollars (cents : ℤ) : ℚ := (cents : ℚ) / 100

/-- Environment of one createPaymentIntent call: the response of the fetch to
/api/create-payment-intent. netThrow models the fetch promise rejecting. -/
structure CreateIntentEnv where
  netThrow : Option String
  ok : Bool
  errMessage : Option String
  statusText : String
  clientSecret : Option String
deriving DecidableEq, Repr

/-- createPaymentIntent from services/stripe.ts. Every failure branch throws
(modelled as Except.error carrying the message); the catch in the source
rethrows after logging, so errors propagate to the caller. -/
def createPaymentIntent (e : CreateIntentEnv) : Except String String :=
  match e.netThrow with
  | some m => .error m
  | none =>
    if e.ok = false then
      .error (e.errMessage.getD ("Failed to create payment intent: " ++ e.statusText))
    else
      match e.clientSecret with
      | none => .error "Payment intent was created but clientSecret is missing from the response"
      | some cs => .ok cs

/-- Environment of one processPaymentWithSheet call: the payment intent
response plus the error results of initPaymentSheet and presentPaymentSheet
(these are returned values of the SDK, not exceptions). -/
structure SheetEnv where
  ci : CreateIntentEnv
  initError : Option String
  presentError : Option String
deriving DecidableEq, Repr

/-- Structured result of processPaymentWithSheet. -/
structure PayResult where
  success : Bool
  paymentIntentId : Option String
  error : Option String
deriving DecidableEq, Repr

/-- Model of the JS pattern (m || fallback) on an error message. -/
def orDefault (m fallback : String) : String := if m = "" then fallback else m

/-- The characters of the split separator between the intent id and the
secret inside a Stripe client secret. -/
def sepList : List Char := ['_', 's', 'e', 'c', 'r', 'e', 't', '_']

/-- Whether the first list occurs at the head of the second. -/
def beginsWith : List Char → List Char → Bool
  | [], _ => true
  | _ :: _, [] => false
  | p :: ps, c :: cs => p = c && beginsWith ps cs

/-- Characters before the first occurrence of the separator (all of them when
the separator does not occur). -/
def splitHead : List Char → List Char
  | [] => []
  | c :: rest => if beginsWith sepList (c :: rest) then [] else c :: splitHead rest

/-- Model of clientSecret.split(sep)[0]: the part of the client secret before
the first separator occurrence. -/
def splitFirst (cs : String) : String := ⟨splitHead cs.toList⟩

/-- processPaymentWithSheet from services/stripe.ts. The whole body sits in a
try/catch whose catch returns a structured failure, so the function is total:
the only throwing sub-call is createPaymentIntent and its error is matched
here exactly where the catch would receive it. -/
def processPaymentWithSheet (env : SheetEnv) : PayResult :=
  match createPaymentIntent env.ci with
  | .error e => { success := false, paymentIntentId := none, error := some e }
  | .ok cs =>
    match env.initError with
    | some m =>
      { success := false, paymentIntentId := none
        error := some (orDefault m "Failed to initialize payment sheet") }
    | none =>
      match env.presentError with
      | some m =>
        { success := false, paymentIntentId := none
          error := some (orDefault m "Payment was cancelled or failed") }
      | none =>
        { success := true, paymentIntentId := some (splitFirst cs), error := none }

/-- Holds exactly when an Except value is an ok. -/
def exceptOk (e : Except String String) : Bool :=
  match e with
  | .ok _ => true
  | .error _ => false

end Stripe

/-! ## app/(tabs)/checkout.tsx: the displayed totals and the payment amount -/

namespace Checkout

/-- firebaseSubtotal = firebaseTotalPrice > 0 ? firebaseTotalPrice : getSubtotal(). -/
def firebaseSubtotal (firebaseTotalPrice : ℚ) (products : List Cart.Product) : ℚ :=
  if 0 < firebaseTotalPrice then firebaseTotalPrice else Cart.getSubtotal products

/-- displayTax = firebaseSubtotal * 0.13. -/
def displayTax (firebaseTotalPrice : ℚ) (products : List Cart.Product) : ℚ :=
  firebaseSubtotal firebaseTotalPrice products * Cart.TAX_RATE

/-- displayTotal = firebaseSubtotal + firebaseTax. -/
def displayTotal (firebaseTotalPrice : ℚ) (products : List Cart.Product) : ℚ :=
  firebaseSubtotal firebaseTotalPrice products + displayTax firebaseTotalPrice products

/-- amountInCents = Math.round(displayTotal * 100), from handlePayment. -/
def amountInCents (firebaseTotalPrice : ℚ) (products : List Cart.Product) : ℤ :=
  jsRound (displayTotal firebaseTotalPrice products * 100)

/-- Outcome of the session-finalize fetch (PUT /api/sessions/id/checkout):
the response arrives ok, arrives with an error status, or the fetch promise
rejects with a network error. -/
inductive FinalizeOutcome
  | ok
  | httpError (status : Nat)
  | netThrow (msg : String)
deriving DecidableEq, Repr

/-- True exactly when the finalize fetch rejects. -/
def FinalizeOutcome.isThrow : FinalizeOutcome → Bool
  | .netThrow _ => true
  | _ => false

/-- The finalize fetch as the code awaits it: an error status resolves to a
response with ok = false, a network error rejects. -/
def finalizeFetch : FinalizeOutcome → Except String Bool
  | .ok => .ok true
  | .httpError _ => .ok false
  | .netThrow m => .error m

/-- Network requests the checkout screen can issue. -/
inductive Request
  | createIntent (amount : ℤ) (sessionId : Option String)
  | finalize (sessionId : String)
deriving DecidableEq, Repr

/-- Observable outcome of processPaymentSuccess in checkout.tsx: whether the
finalize request was issued, whether the success alert was shown, and whether
its OK handler ran (clearCart, setSessionId(null), processing flag cleared,
navigation home). The processing flag value after the call is also recorded. -/
structure SuccessResult where
  finalizeRequested : Bool
  successAlertShown : Bool
  cartCleared : Bool
  sessionReleased : Bool
  processingCleared : Bool
deriving DecidableEq, Repr

/-- processPaymentSuccess from checkout.tsx. The try block performs the
finalize fetch (when a session id is bound) and then shows the success alert
whose OK handler clears the cart, releases the session id, clears the
processing flag and navigates home; the catch logs and clears the processing
flag. A finalize response with an error status only skips a log line; a
finalize rejection jumps to the catch, skipping the success alert and its
handler. -/
def processPaymentSuccess (sessionId : Option String) (fin : FinalizeOutcome) :
    SuccessResult :=
  match sessionId with
  | none =>
    { finalizeRequested := false, successAlertShown := true, cartCleared := true
      sessionReleased := true, processingCleared := true }
  | some _ =>
    match finalizeFetch fin with
    | .error _ =>
      { finalizeRequested := true, successAlertShown := false, cartCleared := false
        sessionReleased := false, processingCleared := true }
    | .ok _ =>
      { finalizeRequested := true, successAlertShown := true, cartCleared := true
        sessionReleased := true, processingCleared := true }

/-- State of the checkout screen that handlePayment reads and writes. -/
structure CheckoutState where
  products : List Cart.Product
  isProcessingPayment : Bool
  firebaseTotalPrice : ℚ
  sessionId : Option String
deriving DecidableEq, Repr

/-- Environment of one handlePayment run in checkout.tsx: the outcome of the
payment intent fetch (ok carries clientSecret and paymentIntentId; error is a
non-ok response or a rejection, both thrown into the catch), the error
results of the two payment sheet calls, and the finalize outcome. -/
structure PayEnv where
  intentOutcome : Except String (String × String)
  initError : Option String
  presentError : Option String
  finalizeOutcome : FinalizeOutcome
deriving Repr

/-- handlePayment from checkout.tsx (the primary checkout screen). There is
no empty-cart guard: once the processing re-entry check passes, the payment
intent request is always issued with amountInCents of the displayed total.
The returned pair is the final screen state together with the list of network
requests issued, in order. -/
def handlePayment (s : CheckoutState) (env : PayEnv) :
    CheckoutState × List Request :=
  if s.isProcessingPayment then (s, [])
  else
    let amount := amountInCents s.firebaseTotalPrice s.products
    let reqs := [Request.createIntent amount s.sessionId]
    match env.intentOutcome with
    | .error _ => ({ s with isProcessingPayment := false }, reqs)
    | .ok _ =>
      match env.initError with
      | some _ => ({ s with isProcessingPayment := false }, reqs)
      | none =>
        match env.presentError with
        | some _ => ({ s with isProcessingPayment := false }, reqs)
        | none =>
          match s.sessionId with
          | some sid =>
            match finalizeFetch env.finalizeOutcome with
            | .error _ =>
              ({ s with isProcessingPayment := false }, reqs ++ [.finalize sid])
            | .ok _ =>
              ({ products := [], sessionId := none, isProcessingPayment := false,
                 firebaseTotalPrice := s.firebaseTotalPrice },
                reqs ++ [.finalize sid])
          | none =>
            ({ s with products := [], isProcessingPayment := false }, reqs)

end Checkout

/-! ## The alternate checkout screen (Stripe service variant) -/

namespace CheckoutAlt

/-- State of the alternate checkout screen. -/
structure AltState where
  products : List Cart.Product
  sessionId : Option String
  isProcessing : Bool
deriving DecidableEq, Repr

/-- handlePayment of the alternate checkout screen: the handler starts with
an explicit empty-cart guard (alert and immediate return, before any state
write), then computes the amount with dollarsToCents over getTotal and runs
processPaymentWithSheet; the cart is cleared on success only, and the
processing flag is restored by the finally block. -/
def handlePayment (s : AltState) (env : Stripe.SheetEnv) :
    AltState × List Checkout.Request :=
  if s.products = [] then (s, [])
  else
    let amount := Stripe.dollarsToCents (Cart.getTotal s.products)
    let r := Stripe.processPaymentWithSheet env
    if r.success then
      ({ s with products := [], isProcessing := false },
        [.createIntent amount s.sessionId])
    else
      ({ s with isProcessing := false }, [.createIntent amount s.sessionId])

end CheckoutAlt

/-! ## app/(tabs)/camera.tsx: the frame capture scheduler and uploader -/

namespace Camera

/-- FRAME_INTERVAL_MS = 200 from camera.tsx. -/
def FRAME_INTERVAL_MS : Nat := 200

/-- Outcome of the frame upload fetch (POST /api/sessions/id/frame). -/
inductive UploadOutcome
  | ok
  | httpError (status : Nat)
  | netError (msg : String)
deriving DecidableEq, Repr

/-- The upload fetch as awaited inside sendFrameToBackend: an error status
resolves to a response with ok = false, a network error rejects. -/
def uploadFetch : UploadOutcome → Except String Bool
  | .ok => .ok true
  | .httpError _ => .ok false
  | .netError m => .error m

/-- sendFrameToBackend from camera.tsx. Without a session id it returns after
a warning. Otherwise every fetch outcome is handled inside the function: a
non-ok response sets an error banner, a rejection is caught by the internal
try/catch and sets a banner, an ok response clears the banner. The promise
therefore always resolves; the modelled value is the banner update. -/
def sendFrameToBackend (sessionId : Option String) (o : UploadOutcome) :
    Option String :=
  match sessionId with
  | none => none
  | some _ =>
    match uploadFetch o with
    | .ok true => none
    | .ok false => some "Send failed"
    | .error m => some ("Network error: " ++ m)

/-- Timed observable outcome of the tail of one capture tick: the absolute
time at which the next captureAndSendFrame invocation is scheduled (none when
no further tick is scheduled) and the error banner left by the upload. -/
structure TickOutcome where
  nextRunAt : Option Nat
  banner : Option String
deriving DecidableEq, Repr

/-- Tail of captureAndSendFrame after takePictureAsync resolved with a photo
carrying base64 data at time captureDoneAt: the in-flight flag is cleared,
the mounted token is checked (an unmounted component schedules nothing), and
then sendFrameToBackend is awaited — its promise resolves after
uploadDuration — before the next tick is scheduled FRAME_INTERVAL_MS later.
Because sendFrameToBackend always resolves, this tail never reaches the catch
of the tick, for failing uploads included. -/
def afterCaptureSuccess (captureDoneAt : Nat) (sessionId : Option String)
    (uploadDuration : Nat) (o : UploadOutcome) (mounted : Bool) : TickOutcome :=
  if mounted = false then { nextRunAt := none, banner := none }
  else
    { nextRunAt := some (captureDoneAt + uploadDuration + FRAME_INTERVAL_MS)
      banner := sendFrameToBackend sessionId o }

/-- State of the capture scheduler. The React state values isStreaming and
cameraReady are modelled as shared flags whose setters take effect at once;
isCapturingRef and isMountedRef are mutable refs; queued records whether a
tick callback is pending in frameIntervalRef (a single timeout slot);
inflight counts the outstanding takePictureAsync operations. -/
structure CamState where
  mounted : Bool
  streaming : Bool
  capturing : Bool
  queued : Bool
  cameraReady : Bool
  inflight : Nat
deriving DecidableEq, Repr

/-- Initial state: mounted, camera ready, not streaming, nothing pending. -/
def initCam : CamState :=
  { mounted := true, streaming := false, capturing := false, queued := false
    cameraReady := true, inflight := 0 }

/-- Events of the cooperative interleaving: startStreaming runs (from the
mount effect); a queued tick callback fires; an outstanding capture resolves
or rejects; stopStreaming runs (back press or effect cleanup); the component
unmounts (isMountedRef cleared, then stopStreaming). -/
inductive Ev
  | start
  | runTick
  | captureRet (ok : Bool)
  | stop
  | unmount
deriving DecidableEq, Repr

/-- Whether an event is a startStreaming invocation. -/
def isStart : Ev → Bool
  | .start => true
  | _ => false

/-- Whether an event halts the scheduler (stopStreaming or unmount). -/
def isHalt : Ev → Bool
  | .stop => true
  | .unmount => true
  | _ => false

/-- The synchronous prefix of one captureAndSendFrame invocation: the mounted
token is checked first (an unmounted component returns without scheduling
anything); then the guard — not streaming, or a capture already in flight, or
camera not ready — schedules a retry tick; otherwise the in-flight flag is
set and the capture capability is invoked, giving one more outstanding
takePictureAsync. The rate-limiting branch (timeSinceLastFrame below the
interval) only reschedules, exactly like the guard branch, and is folded into
it; the session id and the camera ref are taken as present. -/
def tick (s : CamState) : CamState :=
  if s.mounted = false then s
  else if s.streaming && !s.capturing && s.cameraReady then
    { s with capturing := true, inflight := s.inflight + 1 }
  else { s with queued := true }

/-- One event of the scheduler. start sets isStreaming and invokes the tick
body directly (the guard inside startStreaming on session and permission is
taken as passing, and the 500 ms mount-effect delay checks the mounted
token). runTick consumes the pending timeout, if any, and runs the tick body.
captureRet resolves one outstanding capture: both the success tail and the
catch clear the in-flight flag and schedule the next tick when the component
is still mounted. stop clears isStreaming, clears the in-flight flag (as
stopStreaming does, even when a capture is still pending) and cancels the
pending timeout. unmount additionally clears the mounted token. -/
def camStep (s : CamState) : Ev → CamState
  | .start => if s.mounted then tick { s with streaming := true } else s
  | .runTick => if s.queued then tick { s with queued := false } else s
  | .captureRet _ =>
    if s.inflight = 0 then s
    else
      if s.mounted then
        { s with inflight := s.inflight - 1, capturing := false, queued := true }
      else
        { s with inflight := s.inflight - 1, capturing := false }
  | .stop => { s with streaming := false, capturing := false, queued := false }
  | .unmount =>
    { s with mounted := false, streaming := false, capturing := false, queued := false }

/-- Run of the scheduler from a state over a list of events. -/
def camRun (s : CamState) : List Ev → CamState
  | [] => s
  | e :: rest => camRun (camStep s e) rest

/-- Run of the scheduler from the initial state. -/
def runCam (evs : List Ev) : CamState := camRun initCam evs

/-- No event of the list is a startStreaming invocation. -/
def noStart (l : List Ev) : Bool := l.all (fun e => !(isStart e))

/-- Once the scheduler is halted (stopStreaming or unmount), it is never
started again within the list. -/
def noStartAfterHalt : List Ev → Bool
  | [] => true
  | e :: rest => if isHalt e then noStart rest else noStartAfterHalt rest

/-- Invariant before any halt: at most one capture outstanding, and an
outstanding capture is recorded in the in-flight flag. -/
def JInv (s : CamState) : Prop :=
  s.inflight ≤ 1 ∧ (s.inflight = 1 → s.capturing = true)

/-- Invariant after a halt: at most one capture outstanding, and an
outstanding capture is either recorded in the in-flight flag or the scheduler
is no longer streaming. -/
def IInv (s : CamState) : Prop :=
  s.inflight ≤ 1 ∧ (s.inflight = 1 → (s.capturing = true ∨ s.streaming = false))

end Camera

/-! ## The QR pairing screen: scan dedup and the claim slot -/

namespace Pairing

/-- State of the pairing screen. processing is isProcessingScan, lastScanned
and alertShown are the dedup slots (lastScannedId state and alertShownRef,
the empty string standing for the cleared slot), scanning is isScanning,
reqPending is the in-flight pair request with its code, the two okPending
flags record a displayed alert awaiting its OK press, procTimer and
cooldownTimer record the two pending timeouts of the success path, and calls
lists the pairing network calls issued, in order. -/
structure PairState where
  processing : Bool
  lastScanned : String
  alertShown : String
  scanning : Bool
  reqPending : Option String
  okSuccessPending : Bool
  okFailurePending : Bool
  procTimer : Bool
  cooldownTimer : Bool
  calls : List String
deriving DecidableEq, Repr

/-- Initial state of the pairing screen. -/
def initPair : PairState :=
  { processing := false, lastScanned := "", alertShown := "", scanning := false
    reqPending := none, okSuccessPending := false, okFailurePending := false
    procTimer := false, cooldownTimer := false, calls := [] }

/-- Events of the pairing screen: the scanner modal opens (the phone role
button), a barcode scan is delivered, the in-flight pair request resolves or
rejects, the OK of the success or failure alert is pressed, the 1000 ms
post-success timeout fires, and the nested 5000 ms cooldown timeout fires. -/
inductive PairEv
  | openScanner
  | scan (code : String)
  | reqResult (ok : Bool)
  | okSuccess
  | okFailure
  | procFire
  | cooldownFire
deriving DecidableEq, Repr

/-- One event of the pairing screen, following handleBarCodeScanned and its
callbacks. A scan is delivered only while the scanner is open and no claim is
processing (the onBarcodeScanned prop is undefined otherwise); the handler
then drops the empty code, re-checks the processing flag, and drops any code
equal to either dedup slot; an accepted code sets the processing flag, fills
both slots, closes the scanner and issues the pair call. A successful request
shows the success alert; its OK press arms the 1000 ms timeout, whose firing
clears the processing flag and arms the 5000 ms cooldown, whose firing clears
both slots. A failed request clears alertShownRef at once and shows the
failure alert; its OK press clears the processing flag and lastScannedId. -/
def pairStep (s : PairState) : PairEv → PairState
  | .openScanner => { s with scanning := true }
  | .scan code =>
    if s.scanning && !s.processing then
      if code = "" then s
      else if s.processing then s
      else if s.lastScanned = code then s
      else if s.alertShown = code then s
      else
        { s with processing := true, lastScanned := code, alertShown := code
                 scanning := false, reqPending := some code
                 calls := s.calls ++ [code] }
    else s
  | .reqResult ok =>
    match s.reqPending with
    | none => s
    | some _ =>
      if ok then { s with reqPending := none, okSuccessPending := true }
      else
        { s with reqPending := none, alertShown := "", okFailurePending := true }
  | .okSuccess =>
    if s.okSuccessPending then
      { s with okSuccessPending := false, procTimer := true }
    else s
  | .okFailure =>
    if s.okFailurePending then
      { s with okFailurePending := false, processing := false, lastScanned := "" }
    else s
  | .procFire =>
    if s.procTimer then
      { s with procTimer := false, processing := false, cooldownTimer := true }
    else s
  | .cooldownFire =>
    if s.cooldownTimer then
      { s with cooldownTimer := false, alertShown := "", lastScanned := "" }
    else s

/-- Run of the pairing screen over a list of events. -/
def pairRun (s : PairState) : List PairEv → PairState
  | [] => s
  | e :: rest => pairRun (pairStep s e) rest

/-- The events compatible with the post-success cooldown scenario for a code:
every delivered scan carries that code, no pair request fails, and the
cooldown timer of the claim slot has not fired yet. -/
def allowedForCode (c : String) : PairEv → Bool
  | .scan code => code = c
  | .reqResult ok => ok
  | .cooldownFire => false
  | _ => true

/-- Claim-slot invariant for one code: at most one pair call was issued for
it, and once one was, the alertShown slot still holds the code. -/
def SlotInv (c : String) (s : PairState) : Prop :=
  s.calls.count c ≤ 1 ∧ (s.calls.count c = 1 → s.alertShown = c)

end Pairing

/-! ## app/(tabs)/products.tsx: cart reconciliation (Firebase listener) -/

namespace Products

/-- One item of a Firebase cart snapshot as consumed by the products screen
listener (the Cart.items shape of utilities/firebase-db.ts). The quantity
field may be absent; the listener applies (item.quantity || 1). -/
structure FireItem where
  id : String
  name : String
  price : ℚ
  quantity : Option ℤ
deriving DecidableEq, Repr

/-- Model of (item.quantity || 1): a missing or zero quantity becomes 1. -/
def fireQty (q : Option ℤ) : ℤ :=
  match q with
  | none => 1
  | some q => if q = 0 then 1 else q

/-- The listener of products.tsx maps every snapshot item to a Product
(id, name, price, quantity with the || 1 default). -/
def toProduct (it : FireItem) : Cart.Product :=
  { id := it.id, name := it.name, price := it.price, quantity := fireQty it.quantity }

/-- Directional feedback events: playBeep 800 on an increase, playBeep 400 on
a decrease. -/
inductive FeedbackEvent
  | increase (id : String)
  | decrease (id : String)
deriving DecidableEq, Repr

/-- The id an event is about. -/
def eventId : FeedbackEvent → String
  | .increase i => i
  | .decrease i => i

/-- Model of previousQuantitiesRef.current.get(id) || 0 over the retained
association list of quantities. -/
def lookupQty (prev : List (String × ℤ)) (id : String) : ℤ :=
  match prev.find? (fun e => e.1 = id) with
  | some e => e.2
  | none => 0

/-- The event (if any) that the loop body of the listener emits for one
mapped product: prevQuantity > 0 and currentQuantity !== prevQuantity emits
exactly one event whose direction is the sign of the change. -/
def eventFor (prev : List (String × ℤ)) (p : Cart.Product) : Option FeedbackEvent :=
  if 0 < lookupQty prev p.id ∧ p.quantity ≠ lookupQty prev p.id then
    some (if lookupQty prev p.id < p.quantity then .increase p.id else .decrease p.id)
  else none

/-- Events emitted by one delivery of the Firebase listener in products.tsx:
one pass over the mapped products, comparing each quantity against the
quantity retained from the previous delivery. -/
def cartUpdateEvents (prev : List (String × ℤ)) (items : List FireItem) :
    List FeedbackEvent :=
  (items.map toProduct).filterMap (eventFor prev)

/-- The new retained quantities, which replace the previous map after the
pass (previousQuantitiesRef.current = currentQuantities). -/
def newQuantities (items : List FireItem) : List (String × ℤ) :=
  (items.map toProduct).map (fun p => (p.id, p.quantity))

/-- handleQuantityChange from products.tsx: a new quantity of zero or less
opens a removal confirmation (removal only on confirm, no change on cancel);
a positive new quantity is written through updateProductQuantity. -/
def handleQuantityChange (ps : List Cart.Product) (product : Cart.Product)
    (change : ℤ) (confirmRemove : Bool) : List Cart.Product :=
  if product.quantity + change ≤ 0 then
    if confirmRemove then Cart.removeProduct ps product.id else ps
  else Cart.updateProductQuantity ps product.id (product.quantity + change)

end Products

/-! ## Claim theorems: numerical claims C2 and C10 -/

/-- C2: the payable amount is amountMinorUnits = round(total * 100) with the
tax-inclusive total equal to subtotal * (1 + 0.13), where the subtotal is the
effective one of the checkout screen (the Firebase total when positive, the
locally computed subtotal otherwise); and the quoted instance: an effective
subtotal of 10.00 yields tax 1.30, total 11.30 and payment amount 1130. -/
theorem C2_amount_minor_units :
    (∀ (ftp : ℚ) (ps : List Cart.Product),
      Checkout.amountInCents ftp ps =
        jsRound (Checkout.firebaseSubtotal ftp ps * (1 + Cart.TAX_RATE) * 100))
    ∧ Checkout.displayTax 10 [] = 13/10
    ∧ Checkout.displayTotal 10 [] = 113/10
    ∧ Checkout.amountInCents 10 [] = 1130 := by
  refine ⟨fun ftp ps => ?_, ?_, ?_, ?_⟩
  · unfold Checkout.amountInCents Checkout.displayTotal Checkout.displayTax
    congr 1
    ring
  · norm_num [Checkout.displayTax, Checkout.firebaseSubtotal, Cart.TAX_RATE]
  · norm_num [Checkout.displayTotal, Checkout.displayTax, Checkout.firebaseSubtotal,
      Cart.TAX_RATE]
  · have h1 : Checkout.displayTotal 10 [] = 113/10 := by
      norm_num [Checkout.displayTotal, Checkout.displayTax, Checkout.firebaseSubtotal,
        Cart.TAX_RATE]
    unfold Checkout.amountInCents
    rw [h1]
    unfold jsRound
    norm_num

/-- C10: dollarsToCents is a left inverse of centsToDollars on integers. -/
theorem C10_cents_round_trip :
    ∀ n : ℤ, Stripe.dollarsToCents (Stripe.centsToDollars n) = n := by
  intro n
  unfold Stripe.dollarsToCents Stripe.centsToDollars jsRound
  have h : (n : ℚ) / 100 * 100 = (n : ℚ) := by
    field_simp
  rw [h]
  rw [Int.floor_int_add]
  norm_num

/-! ## Claim C3: one reconciliation event per item per delivery -/

namespace Products

/-- The event emitted for a product is about the id of that product. -/
theorem eventId_of_eventFor (prev : List (String × ℤ)) (p : Cart.Product)
    (ev : FeedbackEvent) (h : eventFor prev p = some ev) : eventId ev = p.id := by
  unfold eventFor at h
  split at h
  · have hev := Option.some.inj h
    rw [← hev]
    split <;> rfl
  · exact absurd h (by simp)

/-- Every emitted event is about the id of some delivered item. -/
theorem eventId_mem_of_mem_cartUpdateEvents
    (prev : List (String × ℤ)) (items : List FireItem) (e : FeedbackEvent)
    (h : e ∈ cartUpdateEvents prev items) :
    eventId e ∈ items.map FireItem.id := by
  induction items with
  | nil => simp [cartUpdateEvents] at h
  | cons hd tl ih =>
    rw [cartUpdateEvents, List.map_cons, List.filterMap_cons] at h
    rw [List.map_cons]
    cases hfor : eventFor prev (toProduct hd) with
    | none =>
      rw [hfor] at h
      exact List.mem_cons_of_mem _ (ih h)
    | some ev =>
      rw [hfor] at h
      rcases List.mem_cons.mp h with heq | htl
      · subst heq
        refine List.mem_cons.mpr (Or.inl ?_)
        have := eventId_of_eventFor prev (toProduct hd) _ hfor
        simpa [toProduct] using this
      · exact List.mem_cons_of_mem _ (ih htl)

/-- No event is emitted about an id that is not in the delivery. -/
theorem count_cartUpdateEvents_eq_zero
    (prev : List (String × ℤ)) (items : List FireItem) (e : FeedbackEvent)
    (h : eventId e ∉ items.map FireItem.id) :
    (cartUpdateEvents prev items).count e = 0 := by
  rw [List.count_eq_zero]
  intro hmem
  exact h (eventId_mem_of_mem_cartUpdateEvents prev items e hmem)

end Products

/-- C3: for any previous retained quantities and any snapshot delivery whose
item ids are pairwise distinct, the reconciliation pass emits, for each
delivered item whose id was present before with a positive quantity, exactly
one increase event when the quantity grew and none otherwise, and exactly one
decrease event when it shrank and none otherwise — in particular exactly one
event per changed item per delivery, whatever the magnitude of the change. -/
theorem C3_one_event_per_item (prev : List (String × ℤ)) :
    ∀ (items : List Products.FireItem) (it : Products.FireItem),
      it ∈ items →
      (items.map Products.FireItem.id).Nodup →
      0 < Products.lookupQty prev it.id →
      ((Products.cartUpdateEvents prev items).count (.increase it.id)
          = if Products.lookupQty prev it.id < Products.fireQty it.quantity
            then 1 else 0)
      ∧ ((Products.cartUpdateEvents prev items).count (.decrease it.id)
          = if Products.fireQty it.quantity < Products.lookupQty prev it.id
            then 1 else 0) := by
  intro items
  induction items with
  | nil =>
    intro it hmem _ _
    exact absurd hmem (List.not_mem_nil it)
  | cons hd tl ih =>
    intro it hmem hnodup hpos
    rw [List.map_cons, List.nodup_cons] at hnodup
    obtain ⟨hhd, htlnodup⟩ := hnodup
    rcases List.mem_cons.mp hmem with heq | htl
    · subst heq
      have hz1 : (Products.cartUpdateEvents prev tl).count (.increase it.id) = 0 := by
        refine Products.count_cartUpdateEvents_eq_zero prev tl _ ?_
        simpa [Products.eventId] using hhd
      have hz2 : (Products.cartUpdateEvents prev tl).count (.decrease it.id) = 0 := by
        refine Products.count_cartUpdateEvents_eq_zero prev tl _ ?_
        simpa [Products.eventId] using hhd
      have hpid : (Products.toProduct it).id = it.id := rfl
      have hpq : (Products.toProduct it).quantity = Products.fireQty it.quantity := rfl
      rw [Products.cartUpdateEvents, List.map_cons, List.filterMap_cons]
      rcases lt_trichotomy (Products.lookupQty prev it.id) (Products.fireQty it.quantity)
        with hlt | heqq | hgt
      · have hfor : Products.eventFor prev (Products.toProduct it)
            = some (.increase it.id) := by
          unfold Products.eventFor
          rw [hpid, hpq, if_pos ⟨hpos, ne_of_gt hlt⟩, if_pos hlt]
        rw [hfor]
        constructor
        · simp [List.count_cons, Products.cartUpdateEvents] at hz1 ⊢
          simp [hz1, if_pos hlt]
        · simp [List.count_cons, Products.cartUpdateEvents] at hz2 ⊢
          simp [hz2, if_neg (not_lt_of_gt hlt)]
      · have hfor : Products.eventFor prev (Products.toProduct it) = none := by
          unfold Products.eventFor
          rw [hpid, hpq, if_neg]
          intro hcon
          exact hcon.2 heqq.symm
        rw [hfor]
        constructor
        · simp [Products.cartUpdateEvents] at hz1 ⊢
          simp [hz1, heqq]
        · simp [Products.cartUpdateEvents] at hz2 ⊢
          simp [hz2, heqq]
      · have hfor : Products.eventFor prev (Products.toProduct it)
            = some (.decrease it.id) := by
          unfold Products.eventFor
          rw [hpid, hpq, if_pos ⟨hpos, ne_of_lt hgt⟩, if_neg (not_lt_of_gt hgt)]
        rw [hfor]
        constructor
        · simp [List.count_cons, Products.cartUpdateEvents] at hz1 ⊢
          simp [hz1, if_neg (not_lt_of_gt hgt)]
        · simp [List.count_cons, Products.cartUpdateEvents] at hz2 ⊢
          simp [hz2, if_pos hgt]
    · have hids : it.id ∈ tl.map Products.FireItem.id := List.mem_map_of_mem _ htl
      have hne : hd.id ≠ it.id := fun h => hhd (h ▸ hids)
      have hrec := ih it htl htlnodup hpos
      rw [Products.cartUpdateEvents, List.map_cons, List.filterMap_cons]
      cases hfor : Products.eventFor prev (Products.toProduct hd) with
      | none =>
        simpa [Products.cartUpdateEvents] using hrec
      | some ev =>
        have hid : Products.eventId ev = hd.id := by
          have := Products.eventId_of_eventFor prev (Products.toProduct hd) ev hfor
          simpa [Products.toProduct] using this
        have hne1 : ev ≠ .increase it.id := by
          intro h
          apply hne
          rw [← hid, h]
          rfl
        have hne2 : ev ≠ .decrease it.id := by
          intro h
          apply hne
          rw [← hid, h]
          rfl
        constructor
        · simp [List.count_cons, Products.cartUpdateEvents, Ne.symm hne1] at hrec ⊢
          exact hrec.1
        · simp [List.count_cons, Products.cartUpdateEvents, Ne.symm hne2] at hrec ⊢
          exact hrec.2

/-- Witness for C3 at a concrete input: previous quantity 1 for item a, new
delivery carries quantity 3 for item a — exactly one increase event and no
decrease event. -/
theorem C3_one_event_per_item_witness :
    ((Products.cartUpdateEvents [("a", 1)]
        [⟨"a", "apple", 2, some 3⟩]).count (.increase "a") = 1)
    ∧ ((Products.cartUpdateEvents [("a", 1)]
        [⟨"a", "apple", 2, some 3⟩]).count (.decrease "a") = 0) := by
  have h := C3_one_event_per_item [("a", 1)] [⟨"a", "apple", 2, some 3⟩]
    ⟨"a", "apple", 2, some 3⟩ (by simp) (by simp) (by decide)
  simpa [Products.lookupQty, Products.fireQty] using h

/-! ## Claim C1: empty-cart handling of the payment operation -/

/-- C1 counterexample: in the primary checkout screen, invoking handlePayment
with an empty local cart (and no Firebase total, no session, processing flag
clear) still issues the payment-intent network request, for amount 0 — the
claim that an empty cart is rejected without any network call is false for
this handler. -/
theorem C1_counterexample :
    (Checkout.handlePayment ⟨[], false, 0, none⟩
        ⟨.error "Failed to create payment intent", none, none, .ok⟩).2
      = [Checkout.Request.createIntent 0 none] := by
  have hamt : Checkout.amountInCents 0 [] = 0 := by
    unfold Checkout.amountInCents Checkout.displayTotal Checkout.displayTax
      Checkout.firebaseSubtotal Cart.getSubtotal jsRound Cart.TAX_RATE
    norm_num
  simp [Checkout.handlePayment, hamt]

/-- C1 amended: the empty-cart guard lives in the alternate (Stripe service)
checkout screen: there, handlePayment on an empty products list returns
immediately with the state unchanged and no network request issued; the
primary checkout screen has no such guard and proceeds to the payment-intent
request even with an empty cart. -/
theorem C1_amended_empty_cart_guard :
    ∀ (s : CheckoutAlt.AltState) (env : Stripe.SheetEnv),
      s.products = [] → CheckoutAlt.handlePayment s env = (s, []) := by
  intro s env h
  unfold CheckoutAlt.handlePayment
  rw [if_pos h]

/-- Witness for the amended C1 at a concrete empty-cart state. -/
theorem C1_amended_witness :
    CheckoutAlt.handlePayment ⟨[], none, false⟩
        ⟨⟨none, true, none, "OK", some "pi_1_secret_x"⟩, none, none⟩
      = (⟨[], none, false⟩, []) :=
  C1_amended_empty_cart_guard ⟨[], none, false⟩
    ⟨⟨none, true, none, "OK", some "pi_1_secret_x"⟩, none, none⟩ rfl

/-! ## Claim C7: finalize failure after a successful payment -/

/-- C7 counterexample: when the session-finalize fetch rejects with a network
error, processPaymentSuccess lands in its catch and the success path does not
complete — the success alert is not shown, the cart is not cleared and the
session id is not released (only the processing flag is reset). -/
theorem C7_counterexample :
    Checkout.processPaymentSuccess (some "sess1") (.netThrow "network request failed")
      = ⟨true, false, false, false, true⟩ := rfl

/-- C7 amended: a finalize call that completes with an error HTTP status is
swallowed (only a log line is skipped) and the success path still completes:
success alert shown, cart cleared, session id released; a finalize call that
rejects is caught and logged — no exception escapes and the processing flag
is still cleared — but the success alert, cart clear and session release are
skipped. Nothing in either case reverts the payment itself. -/
theorem C7_amended_finalize_failure :
    (∀ (sid : String) (fin : Checkout.FinalizeOutcome),
      fin.isThrow = false →
      Checkout.processPaymentSuccess (some sid) fin = ⟨true, true, true, true, true⟩)
    ∧ (∀ sid m : String,
      Checkout.processPaymentSuccess (some sid) (.netThrow m)
        = ⟨true, false, false, false, true⟩) := by
  constructor
  · intro sid fin h
    cases fin with
    | ok => rfl
    | httpError status => rfl
    | netThrow m => simp [Checkout.FinalizeOutcome.isThrow] at h
  · intro sid m
    rfl

/-- Witness for the amended C7: a finalize response with HTTP status 500 still
lets the success path complete. -/
theorem C7_amended_witness :
    Checkout.processPaymentSuccess (some "sess1") (.httpError 500)
      = ⟨true, true, true, true, true⟩ :=
  C7_amended_finalize_failure.1 "sess1" (.httpError 500) rfl

/-! ## Claim C9: processPaymentWithSheet is total and structured -/

/-- C9: processPaymentWithSheet never throws (it is a total function of the
outcomes of its sub-calls); success is returned exactly when the payment
intent was created and both payment sheet calls returned no error; every
failure carries an error message and no payment intent id; the success result
carries the payment intent id split out of the client secret. -/
theorem C9_payment_sheet_total :
    ∀ env : Stripe.SheetEnv,
      ((Stripe.processPaymentWithSheet env).success = true
        ↔ (Stripe.exceptOk (Stripe.createPaymentIntent env.ci) = true
            ∧ env.initError = none ∧ env.presentError = none))
      ∧ ((Stripe.processPaymentWithSheet env).success = false
          → (Stripe.processPaymentWithSheet env).error.isSome = true
            ∧ (Stripe.processPaymentWithSheet env).paymentIntentId = none)
      ∧ ((Stripe.processPaymentWithSheet env).success = true
          → (Stripe.processPaymentWithSheet env).error = none
            ∧ ∃ cs, Stripe.createPaymentIntent env.ci = .ok cs
                ∧ (Stripe.processPaymentWithSheet env).paymentIntentId
                    = some (Stripe.splitFirst cs)) := by
  intro env
  unfold Stripe.processPaymentWithSheet
  cases hci : Stripe.createPaymentIntent env.ci with
  | error e => simp [Stripe.exceptOk]
  | ok cs =>
    cases hinit : env.initError with
    | some m => simp [Stripe.exceptOk]
    | none =>
      cases hpres : env.presentError with
      | some m => simp [Stripe.exceptOk]
      | none =>
        refine ⟨by simp [Stripe.exceptOk], by simp, fun _ => ⟨rfl, cs, rfl, rfl⟩⟩

/-- Witness for C9 at a concrete fully successful environment. -/
theorem C9_payment_sheet_total_witness :
    (Stripe.processPaymentWithSheet
        ⟨⟨none, true, none, "OK", some "pi_42_secret_abc"⟩, none, none⟩).success = true
    ∧ (Stripe.processPaymentWithSheet
        ⟨⟨none, true, none, "OK", some "pi_42_secret_abc"⟩, none, none⟩).error = none
    ∧ (Stripe.processPaymentWithSheet
        ⟨⟨none, true, none, "OK", some "pi_42_secret_abc"⟩, none, none⟩).paymentIntentId
        = some "pi_42" := by
  refine ⟨(C9_payment_sheet_total
      ⟨⟨none, true, none, "OK", some "pi_42_secret_abc"⟩, none, none⟩).1.mpr
      ⟨rfl, rfl, rfl⟩, rfl, ?_⟩
  rfl

/-! ## Claim C8: non-positive quantities and the cart operations -/

/-- C8 counterexample: addProduct is a cart operation and stores its argument
quantity unchecked, so adding a product with quantity -1 to an empty cart
leaves an item with a non-positive quantity in the products list. -/
theorem C8_counterexample :
    Cart.addProduct [] ⟨"p1", "item", 1, -1⟩ = [⟨"p1", "item", 1, -1⟩]
    ∧ ((Cart.addProduct [] ⟨"p1", "item", 1, -1⟩).all
        (fun p => decide (0 < p.quantity))) = false := by
  constructor <;> rfl

/-- C8 amended: updateProductQuantity with a requested quantity of zero or
less removes the item instead of storing it, and none of the quantity-editing
operations — updateProductQuantity, removeProduct, handleQuantityChange —
ever leaves an item with a non-positive quantity in a cart whose quantities
were all positive; addProduct, however, inserts or adds the given quantity
unchecked, so adding a non-positive quantity can leave a non-positive entry. -/
theorem C8_amended_nonpositive_removal :
    (∀ (ps : List Cart.Product) (id : String) (q : ℤ), q ≤ 0 →
      Cart.updateProductQuantity ps id q = Cart.removeProduct ps id)
    ∧ (∀ (ps : List Cart.Product) (id : String) (q : ℤ),
        (∀ p ∈ ps, 0 < p.quantity) →
        ∀ p ∈ Cart.updateProductQuantity ps id q, 0 < p.quantity)
    ∧ (∀ (ps : List Cart.Product) (id : String),
        (∀ p ∈ ps, 0 < p.quantity) →
        ∀ p ∈ Cart.removeProduct ps id, 0 < p.quantity)
    ∧ (∀ (ps : List Cart.Product) (product : Cart.Product) (change : ℤ)
          (confirmRemove : Bool),
        (∀ p ∈ ps, 0 < p.quantity) →
        ∀ p ∈ Products.handleQuantityChange ps product change confirmRemove,
          0 < p.quantity) := by
  have hrem : ∀ (ps : List Cart.Product) (id : String),
      (∀ p ∈ ps, 0 < p.quantity) →
      ∀ p ∈ Cart.removeProduct ps id, 0 < p.quantity := by
    intro ps id h p hp
    exact h p (List.mem_of_mem_filter hp)
  have hupd : ∀ (ps : List Cart.Product) (id : String) (q : ℤ),
      (∀ p ∈ ps, 0 < p.quantity) →
      ∀ p ∈ Cart.updateProductQuantity ps id q, 0 < p.quantity := by
    intro ps id q h p hp
    unfold Cart.updateProductQuantity at hp
    by_cases hq : q ≤ 0
    · rw [if_pos hq] at hp
      exact hrem ps id h p hp
    · rw [if_neg hq] at hp
      obtain ⟨a, ha, rfl⟩ := List.mem_map.mp hp
      by_cases hid : a.id = id
      · rw [if_pos hid]
        simpa using lt_of_not_le hq
      · rw [if_neg hid]
        exact h a ha
  refine ⟨?_, hupd, hrem, ?_⟩
  · intro ps id q hq
    unfold Cart.updateProductQuantity
    rw [if_pos hq]
  · intro ps product change confirmRemove h p hp
    unfold Products.handleQuantityChange at hp
    by_cases hle : product.quantity + change ≤ 0
    · rw [if_pos hle] at hp
      by_cases hc : confirmRemove = true
      · rw [if_pos hc] at hp
        exact hrem ps product.id h p hp
      · rw [if_neg hc] at hp
        exact h p hp
    · rw [if_neg hle] at hp
      exact hupd ps product.id (product.quantity + change) h p hp

/-- Witness for the amended C8: updating a concrete one-item cart to
quantity 0 coincides with removal, and updating it to quantity 5 leaves only
positive quantities. -/
theorem C8_amended_witness :
    Cart.updateProductQuantity [⟨"p1", "item", 1, 2⟩] "p1" 0
      = Cart.removeProduct [⟨"p1", "item", 1, 2⟩] "p1"
    ∧ 0 < (⟨"p1", "item", 1, 5⟩ : Cart.Product).quantity := by
  refine ⟨C8_amended_nonpositive_removal.1 [⟨"p1", "item", 1, 2⟩] "p1" 0 (by decide),
    C8_amended_nonpositive_removal.2.1 [⟨"p1", "item", 1, 2⟩] "p1" 5 ?_
      ⟨"p1", "item", 1, 5⟩ ?_⟩
  · intro p hp
    rw [List.mem_singleton] at hp
    subst hp
    decide
  · simp [Cart.updateProductQuantity, Cart.removeProduct]

/-! ## Claims C4 and C5: the capture scheduler -/

namespace Camera

/-- The pre-halt invariant is preserved by every non-halt event. -/
theorem JInv_step (s : CamState) (e : Ev) (hJ : JInv s) (he : isHalt e = false) :
    JInv (camStep s e) := by
  obtain ⟨h1, h2⟩ := hJ
  cases e with
  | stop => simp [isHalt] at he
  | unmount => simp [isHalt] at he
  | start =>
    unfold camStep tick
    split_ifs <;> constructor <;> simp_all <;> omega
  | runTick =>
    unfold camStep tick
    split_ifs <;> constructor <;> simp_all <;> omega
  | captureRet ok =>
    unfold camStep
    split_ifs <;> constructor <;> simp_all <;> omega

/-- The post-halt invariant is preserved by every non-start event. -/
theorem IInv_step (s : CamState) (e : Ev) (hI : IInv s) (he : isStart e = false) :
    IInv (camStep s e) := by
  obtain ⟨h1, h2⟩ := hI
  cases e with
  | start => simp [isStart] at he
  | runTick =>
    unfold camStep tick
    split_ifs <;> constructor <;> simp_all <;> omega
  | captureRet ok =>
    unfold camStep
    split_ifs <;> constructor <;> simp_all <;> omega
  | stop =>
    unfold camStep
    constructor <;> simp_all
  | unmount =>
    unfold camStep
    constructor <;> simp_all

/-- The pre-halt invariant implies the post-halt invariant. -/
theorem JInv_imp_IInv (s : CamState) (h : JInv s) : IInv s :=
  ⟨h.1, fun hi => Or.inl (h.2 hi)⟩

/-- From a state satisfying the post-halt invariant, a start-free run keeps
every reachable inflight count at most one. -/
theorem IInv_run_take (evs : List Ev) :
    ∀ s : CamState, IInv s → noStart evs = true →
      ∀ n : Nat, (camRun s (evs.take n)).inflight ≤ 1 := by
  induction evs with
  | nil =>
    intro s hI _ n
    simpa [camRun] using hI.1
  | cons e rest ih =>
    intro s hI hns n
    simp only [noStart, List.all_cons, Bool.and_eq_true] at hns
    have hne : isStart e = false := by simpa using hns.1
    have hrest : noStart rest = true := by simpa [noStart] using hns.2
    cases n with
    | zero => simpa [camRun] using hI.1
    | succ n =>
      rw [List.take_succ_cons]
      exact ih (camStep s e) (IInv_step s e hI hne) hrest n

/-- From a state satisfying the pre-halt invariant, a run that never starts
again after halting keeps every reachable inflight count at most one. -/
theorem JInv_run_take (evs : List Ev) :
    ∀ s : CamState, JInv s → noStartAfterHalt evs = true →
      ∀ n : Nat, (camRun s (evs.take n)).inflight ≤ 1 := by
  induction evs with
  | nil =>
    intro s hJ _ n
    simpa [camRun] using hJ.1
  | cons e rest ih =>
    intro s hJ hns n
    cases n with
    | zero => simpa [camRun] using hJ.1
    | succ n =>
      rw [List.take_succ_cons]
      by_cases hh : isHalt e = true
      · have hns2 : noStart rest = true := by
          simpa [noStartAfterHalt, hh] using hns
        have hI : IInv (camStep s e) := by
          refine IInv_step s e (JInv_imp_IInv s hJ) ?_
          cases e <;> simp_all [isStart, isHalt]
        exact IInv_run_take rest (camStep s e) hI hns2 n
      · have hns2 : noStartAfterHalt rest = true := by
          simpa [noStartAfterHalt, hh] using hns
        have hf : isHalt e = false := by simpa using hh
        exact ih (camStep s e) (JInv_step s e hJ hf) hns2 n

/-- A halted scheduler stays halted and never gains a capture under any
non-start event. -/
theorem stopAbsorb_step (s : CamState) (e : Ev) (hs : s.streaming = false)
    (he : isStart e = false) :
    (camStep s e).streaming = false ∧ (camStep s e).inflight ≤ s.inflight := by
  cases e with
  | start => simp [isStart] at he
  | runTick =>
    unfold camStep tick
    split_ifs <;> simp_all <;> omega
  | captureRet ok =>
    unfold camStep
    split_ifs <;> simp_all <;> omega
  | stop => unfold camStep; simp_all
  | unmount => unfold camStep; simp_all

/-- A halted scheduler stays halted and never gains a capture over any
start-free run. -/
theorem stopAbsorb_run (evs : List Ev) :
    ∀ s : CamState, s.streaming = false → noStart evs = true →
      (camRun s evs).inflight ≤ s.inflight ∧ (camRun s evs).streaming = false := by
  induction evs with
  | nil =>
    intro s hs _
    exact ⟨le_refl _, hs⟩
  | cons e rest ih =>
    intro s hs hns
    simp only [noStart, List.all_cons, Bool.and_eq_true] at hns
    have hne : isStart e = false := by simpa using hns.1
    have hrest : noStart rest = true := by simpa [noStart] using hns.2
    obtain ⟨hstr, hinf⟩ := stopAbsorb_step s e hs hne
    obtain ⟨hinf2, hstr2⟩ := ih (camStep s e) hstr hrest
    exact ⟨le_trans hinf2 hinf, hstr2⟩

end Camera

/-- C4 counterexample: the scheduler awaits the upload, so the time at which
the next capture tick is scheduled depends on the upload duration — a slow
upload (1000 ms here) delays the next tick relative to an instant upload,
refuting that an arbitrarily slow upload never delays the next capture. -/
theorem C4_counterexample :
    (Camera.afterCaptureSuccess 0 (some "s1") 1000 .ok true).nextRunAt
      ≠ (Camera.afterCaptureSuccess 0 (some "s1") 0 .ok true).nextRunAt := by
  decide

/-- C4 amended: after a successful capture the scheduler awaits the upload
and schedules the next tick FRAME_INTERVAL_MS after the upload resolves (so
a slow upload does delay the next capture by its duration), but upload
failures never propagate back into the capture loop: for every upload
outcome, error outcomes included, the tail resolves normally, the next tick
is still scheduled, and the only observable effect of a failure is the error
banner left by sendFrameToBackend. -/
theorem C4_amended_upload_awaited :
    ∀ (t : Nat) (sid : String) (d : Nat) (o : Camera.UploadOutcome),
      (Camera.afterCaptureSuccess t (some sid) d o true).nextRunAt
        = some (t + d + Camera.FRAME_INTERVAL_MS)
      ∧ (Camera.afterCaptureSuccess t (some sid) d o true).banner
        = Camera.sendFrameToBackend (some sid) o := by
  intro t sid d o
  exact ⟨rfl, rfl⟩

/-- C5 counterexample: stopStreaming clears the in-flight guard even while a
capture is pending, so starting, stopping during the pending capture and
starting again overlaps two captures — two capture operations are in flight
at one instant, refuting the single-flight claim for stop/restart cycles. -/
theorem C5_counterexample :
    (Camera.runCam [.start, .stop, .start]).inflight = 2 := rfl

/-- C5 amended: as long as the scheduler is not started again after a halt,
at most one capture operation is in flight at every instant; and once
stopStreaming has run (isStreaming false), any start-free continuation never
begins a further capture — ticks already queued are cancelled by stop, and
ticks queued later only reschedule themselves — and the scheduler stays
halted. A stop immediately followed by a restart while a capture is still
pending escapes this bound, because stopStreaming clears the in-flight guard
of the pending capture. -/
theorem C5_amended_single_flight :
    (∀ evs : List Camera.Ev, Camera.noStartAfterHalt evs = true →
      ∀ n : Nat, (Camera.runCam (evs.take n)).inflight ≤ 1)
    ∧ (∀ (s : Camera.CamState) (evs : List Camera.Ev),
        s.streaming = false → Camera.noStart evs = true →
        (Camera.camRun s evs).inflight ≤ s.inflight
        ∧ (Camera.camRun s evs).streaming = false) := by
  constructor
  · intro evs hns n
    exact Camera.JInv_run_take evs Camera.initCam (by constructor <;> simp [Camera.initCam]) hns n
  · intro s evs hs hns
    exact Camera.stopAbsorb_run evs s hs hns

/-- Witness for the amended C5 on a concrete run: a full
start, tick, capture-return, stop, tick history keeps at most one capture in
flight, and a stopped state with a stale queued tick gains no capture. -/
theorem C5_amended_witness :
    (Camera.runCam ([Camera.Ev.start, Camera.Ev.runTick, Camera.Ev.captureRet true,
        Camera.Ev.stop, Camera.Ev.runTick].take 5)).inflight ≤ 1
    ∧ (Camera.camRun ⟨true, false, false, true, true, 0⟩
        [Camera.Ev.runTick, Camera.Ev.captureRet true]).inflight ≤ 0
    ∧ (Camera.camRun ⟨true, false, false, true, true, 0⟩
        [Camera.Ev.runTick, Camera.Ev.captureRet true]).streaming = false := by
  refine ⟨C5_amended_single_flight.1
      [Camera.Ev.start, Camera.Ev.runTick, Camera.Ev.captureRet true,
        Camera.Ev.stop, Camera.Ev.runTick] (by decide) 5, ?_, ?_⟩
  · exact (C5_amended_single_flight.2 ⟨true, false, false, true, true, 0⟩
      [Camera.Ev.runTick, Camera.Ev.captureRet true] rfl (by decide)).1
  · exact (C5_amended_single_flight.2 ⟨true, false, false, true, true, 0⟩
      [Camera.Ev.runTick, Camera.Ev.captureRet true] rfl (by decide)).2

/-! ## Claim C6: scan dedup of the pairing screen -/

namespace Pairing

/-- The claim-slot invariant is preserved by every event of the post-success
cooldown scenario. -/
theorem SlotInv_step (c : String) (s : PairState) (e : PairEv)
    (hP : SlotInv c s) (he : allowedForCode c e = true) :
    SlotInv c (pairStep s e) := by
  obtain ⟨h1, h2⟩ := hP
  cases e with
  | openScanner => exact ⟨h1, h2⟩
  | scan code =>
    have hc : code = c := by simpa [allowedForCode] using he
    subst hc
    simp only [pairStep]
    by_cases hdeliver : (s.scanning && !s.processing) = true
    · rw [if_pos hdeliver]
      by_cases hempty : code = ""
      · rw [if_pos hempty]; exact ⟨h1, h2⟩
      · rw [if_neg hempty]
        by_cases hproc : s.processing = true
        · rw [if_pos hproc]; exact ⟨h1, h2⟩
        · rw [if_neg hproc]
          by_cases hlast : s.lastScanned = code
          · rw [if_pos hlast]; exact ⟨h1, h2⟩
          · rw [if_neg hlast]
            by_cases halert : s.alertShown = code
            · rw [if_pos halert]; exact ⟨h1, h2⟩
            · rw [if_neg halert]
              have hzero : s.calls.count code = 0 := by
                rcases Nat.lt_or_ge (s.calls.count code) 1 with h | h
                · omega
                · exact absurd (h2 (by omega)) halert
              constructor
              · simp [List.count_append, hzero]
              · intro _
                rfl
    · rw [if_neg hdeliver]; exact ⟨h1, h2⟩
  | reqResult ok =>
    have hok : ok = true := by simpa [allowedForCode] using he
    subst hok
    simp only [pairStep]
    cases s.reqPending with
    | none => exact ⟨h1, h2⟩
    | some code => simpa using ⟨h1, h2⟩
  | okSuccess =>
    simp only [pairStep]
    split_ifs <;> exact ⟨h1, h2⟩
  | okFailure =>
    simp only [pairStep]
    split_ifs <;> exact ⟨h1, h2⟩
  | procFire =>
    simp only [pairStep]
    split_ifs <;> exact ⟨h1, h2⟩
  | cooldownFire => simp [allowedForCode] at he

/-- The claim-slot invariant holds along every run of allowed events. -/
theorem SlotInv_run (c : String) (evs : List PairEv) :
    ∀ s : PairState, SlotInv c s → evs.all (allowedForCode c) = true →
      SlotInv c (pairRun s evs) := by
  induction evs with
  | nil => intro s hP _; exact hP
  | cons e rest ih =>
    intro s hP hall
    simp only [List.all_cons, Bool.and_eq_true] at hall
    exact ih (pairStep s e) (SlotInv_step c s e hP hall.1) hall.2

end Pairing

/-- C6 counterexample: the dedup slot is a single slot. After a successful
claim of code A (its 5 s cooldown still pending — no cooldown event occurs in
this trace), a successful claim of code B overwrites both dedup slots, so a
rescan of A within the cooldown window of A is accepted again: two pairing
network calls are issued for A in total, refuting the at-most-one-call claim.
The trace is temporally consistent: only the two 1000 ms post-OK timeouts
fire, which is sooner than the first 5000 ms cooldown expiry. -/
theorem C6_counterexample :
    (Pairing.pairRun Pairing.initPair
        [.openScanner, .scan "A", .reqResult true, .okSuccess, .procFire,
         .openScanner, .scan "B", .reqResult true, .okSuccess, .procFire,
         .openScanner, .scan "A"]).calls = ["A", "B", "A"]
    ∧ (Pairing.pairRun Pairing.initPair
        [.openScanner, .scan "A", .reqResult true, .okSuccess, .procFire,
         .openScanner, .scan "B", .reqResult true, .okSuccess, .procFire,
         .openScanner, .scan "A"]).calls.count "A" = 2 := by
  constructor <;> rfl

/-- C6 amended: while a pairing claim is in flight every incoming scan is
silently dropped — the handler leaves the whole screen state unchanged, so
nothing is queued and no error is raised; and resubmitting the same pairing
code after a successful claim, while its cooldown has not expired, issues no
second pairing call provided no different code is scanned in between: along
any event sequence in which all scans carry that code, no pairing request
fails and the cooldown timer has not fired, at most one pairing call is
issued for the code in total. A successful scan of a different code
overwrites the single dedup slot and voids this guarantee. -/
theorem C6_amended_scan_dedup :
    (∀ (s : Pairing.PairState) (c : String),
      s.processing = true → Pairing.pairStep s (.scan c) = s)
    ∧ (∀ (c : String) (evs : List Pairing.PairEv),
      evs.all (Pairing.allowedForCode c) = true →
      (Pairing.pairRun Pairing.initPair evs).calls.count c ≤ 1) := by
  constructor
  · intro s c h
    simp only [Pairing.pairStep]
    simp [h]
  · intro c evs hall
    refine (Pairing.SlotInv_run c evs Pairing.initPair ?_ hall).1
    constructor
    · simp [Pairing.initPair]
    · intro h
      simp [Pairing.initPair] at h

/-- Witness for the amended C6: a scan delivered while a claim is in flight
changes nothing, and a double submission of the same code around a successful
claim yields a single pairing call. -/
theorem C6_amended_witness :
    Pairing.pairStep
        ⟨true, "", "", true, some "A", false, false, false, false, ["A"]⟩
        (.scan "B")
      = ⟨true, "", "", true, some "A", false, false, false, false, ["A"]⟩
    ∧ (Pairing.pairRun Pairing.initPair
        [.openScanner, .scan "A", .reqResult true, .okSuccess, .procFire,
         .openScanner, .scan "A"]).calls.count "A" ≤ 1 := by
  refine ⟨C6_amended_scan_dedup.1
      ⟨true, "", "", true, some "A", false, false, false, false, ["A"]⟩ "B" rfl,
    C6_amended_scan_dedup.2 "A"
      [.openScanner, .scan "A", .reqResult true, .okSuccess, .procFire,
       .openScanner, .scan "A"] (by decide)⟩

end QuickCart
